import Mathlib

/-!
Shallow embedding of the Universal Robots client library driver core
(`ur_client_library`), centred on `UrDriver` (src/include/ur_client_library/ur/ur_driver.h)
and the per-channel protocol state machines described by the design document.

Only the driver header is part of the sources; the channel implementations
(`reverse_interface`, `trajectory_point_interface`, `script_command_interface`,
`rtde_client`) are declared but not included.  Definitions for those parts are
modelled from the specification, as marked in their doc comments.  Definitions
taken from the header (constructor default arguments, the delegating
constructor body, the inline getters) follow the source text directly.
-/

namespace Urcl

/-- `vector6d_t`: six doubles (joint positions, wrenches, limits).  Doubles are
modelled as rationals; the driver core only stores and forwards them. -/
def vector6d_t : Type := Fin 6 → ℚ

/-- `vector3d_t`: three doubles (centre of gravity, gravity direction). -/
def vector3d_t : Type := Fin 3 → ℚ

/-- `vector6uint32_t`: six unsigned integers (force-mode selection vector). -/
def vector6uint32_t : Type := Fin 6 → ℕ

/-- `ToolVoltage`: tool voltage setting (0/12/24 V), modelled as a natural. -/
abbrev ToolVoltage : Type := ℕ

/-- `VersionInformation` (ur/version_information.h): immutable record of the
controller software version, populated once at startup from the status stream. -/
structure VersionInformation where
  major : ℕ
  minor : ℕ
  bugfix : ℕ
  build : ℕ
deriving DecidableEq, Repr

/-- Modelled from the spec: `comm::ControlMode` (comm/control_mode.h is not in
the sources).  Tag distinguishing which semantic interpretation applies to an
outgoing setpoint frame: joint position control, force control, freedrive,
idle/keepalive, trajectory forwarding, and the stop directive. -/
inductive ControlMode where
  | jointPosition
  | forceControl
  | freedrive
  | idleKeepalive
  | trajectoryForward
  | stopped
deriving DecidableEq, Repr

/-- Modelled from the spec: the realtime tag on a control mode.  Position and
force control are the realtime-tagged modes; they require a fresh command every
control cycle. -/
def ControlMode.isRealtime : ControlMode → Bool
  | .jointPosition => true
  | .forceControl => true
  | _ => false

/-- `RobotReceiveTimeout` (ur/robot_receive_timeout.h): either a bounded
duration in milliseconds the robot-side program waits for the next frame, or
`off` (blocking / unbounded wait). -/
structure RobotReceiveTimeout where
  milliseconds : Option ℕ
deriving DecidableEq, Repr

/-- `RobotReceiveTimeout::millisec(n)`: a bounded receive timeout of `n` ms. -/
def RobotReceiveTimeout.millisec (n : ℕ) : RobotReceiveTimeout :=
  { milliseconds := some n }

/-- `RobotReceiveTimeout::off()`: blocking read, no timeout. -/
def RobotReceiveTimeout.off : RobotReceiveTimeout :=
  { milliseconds := none }

/-- Modelled from the spec: whether a timeout exceeds the one-second cap that
realtime-tagged modes impose.  An unbounded (`off`) timeout exceeds the cap. -/
def RobotReceiveTimeout.exceedsRealtimeCap (t : RobotReceiveTimeout) : Bool :=
  match t.milliseconds with
  | some n => decide (1000 < n)
  | none => true

/-- One fixed-size binary frame written to the reverse channel: an embedded
mode tag, a timeout directive and the six command values. -/
structure ReverseFrame where
  mode : ControlMode
  timeout : RobotReceiveTimeout
  values : vector6d_t

/-- Modelled from the spec: state of `control::ReverseInterface`
(control/reverse_interface.h is not in the sources).  The driver opens a TCP
server; at most one robot-side client connects.  `sentFrames` records every
frame actually written to the socket, in order. -/
structure ReverseInterfaceState where
  clientConnected : Bool
  sentFrames : List ReverseFrame

/-- Modelled from the spec: the reverse-channel write.  Realtime-tagged modes
reject timeouts above 1 second before any socket I/O; otherwise one fixed-size
frame tagged with the mode and the timeout directive is serialized, and the
write fails (returns false) if the socket is not connected. -/
def ReverseInterfaceState.write (st : ReverseInterfaceState) (values : vector6d_t)
    (control_mode : ControlMode) (t : RobotReceiveTimeout) :
    Bool × ReverseInterfaceState :=
  if control_mode.isRealtime && t.exceedsRealtimeCap then
    (false, st)
  else if st.clientConnected then
    (true, { st with sentFrames := st.sentFrames ++ [⟨control_mode, t, values⟩] })
  else
    (false, st)

/-- `control::TrajectoryControlMessage` (control/trajectory_point_interface.h is
not in the sources): action carried by a trajectory control message.
Modelled from the spec: start (declaring how many points follow), mid-stream
cancel and a no-op keepalive action. -/
inductive TrajectoryControlMessage where
  | trajectoryStart
  | trajectoryCancel
  | trajectoryNoop
deriving DecidableEq, Repr

/-- `control::TrajectoryResult`: terminal outcome of a forwarded trajectory. -/
inductive TrajectoryResult where
  | success
  | canceled
  | failure
deriving DecidableEq, Repr

/-- Modelled from the spec: phase of the trajectory streaming channel.  While
streaming, the channel retains only the count of declared points not yet sent
(it does not retain the points themselves). -/
inductive TrajectoryPhase where
  | idle
  | streaming (remaining : ℕ)
deriving DecidableEq, Repr

/-- Modelled from the spec: state of `control::TrajectoryPointInterface`.  The
driver opens a TCP server on the trajectory port; one robot-side client
connects.  `sentPointCount` counts point frames actually written. -/
structure TrajectoryInterfaceState where
  phase : TrajectoryPhase
  clientConnected : Bool
  sentPointCount : ℕ
deriving DecidableEq, Repr

/-- Modelled from the spec: trajectory control message.  `trajectoryStart` with
a point count transitions Idle to Streaming, declaring how many points follow;
starting while a trajectory is in flight is caller misuse surfaced as `false`;
cancel is permitted only while Streaming and is forwarded to the robot without
leaving Streaming (the terminal outcome arrives asynchronously). -/
def TrajectoryInterfaceState.writeControlMessage (st : TrajectoryInterfaceState)
    (action : TrajectoryControlMessage) (point_number : ℕ) :
    Bool × TrajectoryInterfaceState :=
  match action, st.phase with
  | .trajectoryStart, .idle =>
    if st.clientConnected then
      (true, { st with phase := .streaming point_number })
    else
      (false, st)
  | .trajectoryStart, .streaming _ => (false, st)
  | .trajectoryCancel, .streaming _ =>
    if st.clientConnected then (true, st) else (false, st)
  | .trajectoryCancel, .idle => (false, st)
  | .trajectoryNoop, _ => (st.clientConnected, st)

/-- Modelled from the spec: one trajectory point write.  Writing outside the
Streaming phase, or beyond the declared point count, is caller misuse surfaced
as `false`; an accepted write sends one point frame and decrements the count of
outstanding declared points. -/
def TrajectoryInterfaceState.writePoint (st : TrajectoryInterfaceState) :
    Bool × TrajectoryInterfaceState :=
  match st.phase with
  | .idle => (false, st)
  | .streaming remaining =>
    if remaining = 0 then
      (false, st)
    else if st.clientConnected then
      (true, { st with phase := .streaming (remaining - 1),
                       sentPointCount := st.sentPointCount + 1 })
    else
      (false, st)

/-- Modelled from the spec: robot-reported terminal outcome arriving on the
trajectory channel.  While Streaming the channel transitions back to Idle and
invokes the registered trajectory-done callback exactly once with the outcome
(the returned list collects the callback invocations of this step); a report
arriving while Idle invokes nothing. -/
def TrajectoryInterfaceState.robotReportsDone (st : TrajectoryInterfaceState)
    (result : TrajectoryResult) : TrajectoryInterfaceState × List TrajectoryResult :=
  match st.phase with
  | .streaming _ => ({ st with phase := .idle }, [result])
  | .idle => (st, [])

/-- `rtde_interface::DataPackage`: one cyclic-exchange frame, a mapping from
output-recipe field name to value. -/
def DataPackage : Type := List (String × ℚ)

/-- Modelled from the spec: the cyclic channel buffers only the most recent
unread frame; stale frames are discarded on arrival of a newer one. -/
structure RtdePipeline where
  latestBuffered : Option DataPackage

/-- Modelled from the spec: arrival of one cyclic frame.  The new frame
replaces whatever unread frame was buffered. -/
def RtdePipeline.receiveFrame (_ : RtdePipeline) (f : DataPackage) : RtdePipeline :=
  { latestBuffered := some f }

/-- Arrival of a sequence of cyclic frames, in order. -/
def RtdePipeline.receiveAll (p : RtdePipeline) (fs : List DataPackage) : RtdePipeline :=
  fs.foldl RtdePipeline.receiveFrame p

/-- Modelled from the spec: `poll` / `getDataPackage` on the cyclic channel.
Returns the most recent unread frame if one arrived within the preconfigured
time window (modelled as the buffer being non-empty), handing ownership to the
caller; returns none otherwise. -/
def RtdePipeline.poll (p : RtdePipeline) : Option DataPackage × RtdePipeline :=
  (p.latestBuffered, { latestBuffered := none })

/-- Modelled from the spec: state of the version and calibration validator.
`reportedChecksum` is the robot-reported kinematics checksum once the check has
been performed, `none` while not yet available. -/
structure CalibrationState where
  reportedChecksum : Option String
deriving DecidableEq, Repr

/-- `control::PayloadEstimType`: mode of the payload estimation motion. -/
inductive PayloadEstimType where
  | frontLift
  | frontDrag
  | topLift
deriving DecidableEq, Repr

/-- One framed discrete command message on the script-command channel
(control/script_command_interface.h is not in the sources; modelled from the
spec's list of one-shot commands). -/
inductive ScriptCommand where
  | zeroFtSensorCmd
  | setPayloadCmd (mass : ℚ) (cog : vector3d_t)
  | setToolVoltageCmd (voltage : ToolVoltage)
  | startForceModeCmd (task_frame : vector6d_t) (selection_vector : vector6uint32_t)
      (wrench : vector6d_t) (type : ℕ) (limits : vector6d_t)
  | endForceModeCmd
  | startToolContactCmd
  | endToolContactCmd
  | setGravityCmd (gravity : vector3d_t)
  | startPayloadEstimationCmd (command_type : PayloadEstimType) (move_distance : ℚ)
      (secondary_move_distance : ℚ) (move_speed : ℚ)

/-- Modelled from the spec: state of `control::ScriptCommandInterface`.  The
robot-side control program connects to the script-command server only while it
is active; `clientConnected` is that condition.  `sentCommands` records every
command frame actually written. -/
structure ScriptCommandInterfaceState where
  clientConnected : Bool
  sentCommands : List ScriptCommand

/-- Modelled from the spec: sending one framed discrete command.  Without an
active robot-side control program (no connected client) the call returns
failure immediately rather than blocking; otherwise the single command frame is
written. -/
def ScriptCommandInterfaceState.sendCommand (st : ScriptCommandInterfaceState)
    (cmd : ScriptCommand) : Bool × ScriptCommandInterfaceState :=
  if st.clientConnected then
    (true, { st with sentCommands := st.sentCommands ++ [cmd] })
  else
    (false, st)

/-- Modelled from the spec: `UrDriver::tryReconnectScriptCommandInterface`.
The orchestrator periodically retries the connection rather than treating a
drop as fatal; a retry succeeds exactly when the robot-side control program is
up and accepting again (`robotProgramUp`). -/
def ScriptCommandInterfaceState.tryReconnect (st : ScriptCommandInterfaceState)
    (robotProgramUp : Bool) : ScriptCommandInterfaceState :=
  if st.clientConnected then st
  else if robotProgramUp then { st with clientConnected := true } else st

/-- Opaque handle standing for the `std::function<void(bool)>` program-state
callback value passed to the constructors; only its identity matters to the
driver core. -/
structure ProgramStateCallback where
  handleId : ℕ
deriving DecidableEq, Repr

/-- `ToolCommSetup` (ur/tool_communication.h): configuration for the tool
communication, opaque to the driver core; only its identity matters here. -/
structure ToolCommSetup where
  setupId : ℕ
deriving DecidableEq, Repr

/-- The configuration a `UrDriver` constructor resolves from its arguments:
every constructor parameter after default-argument substitution.  A null
`std::unique_ptr<ToolCommSetup>` is `none`. -/
structure UrDriverConfig where
  robot_ip : String
  script_file : String
  output_recipe_file : String
  input_recipe_file : String
  handle_program_state : ProgramStateCallback
  headless_mode : Bool
  tool_comm_setup : Option ToolCommSetup
  calibration_checksum : String
  reverse_port : ℕ
  script_sender_port : ℕ
  servoj_gain : ℤ
  servoj_lookahead_time : ℚ
  non_blocking_read : Bool
  reverse_ip : String
  trajectory_port : ℕ
  script_command_port : ℕ
  force_mode_damping : ℚ
  force_mode_gain_scaling : ℚ
  default_payload_mass : ℚ
  default_payload_cog_x : ℚ
  default_payload_cog_y : ℚ
  default_payload_cog_z : ℚ
deriving DecidableEq, Repr

/-- The full `UrDriver` constructor taking a tool communication setup and an
expected calibration checksum (header lines 138-145).  Each defaulted C++
parameter is an `Option`: `none` means the call site omitted it and the
header's default argument applies.  The default values (ports 50001/50002/
50003/50004, gain 2000, lookahead 0.03, damping 0.025, gain scaling 0.5,
payload mass and centre-of-gravity components 0.0) are taken from the source
declaration. -/
def urDriverCtorFull (robot_ip script_file output_recipe_file input_recipe_file : String)
    (handle_program_state : ProgramStateCallback) (headless_mode : Bool)
    (tool_comm_setup : Option ToolCommSetup)
    (calibration_checksum : Option String)
    (reverse_port script_sender_port : Option ℕ)
    (servoj_gain : Option ℤ) (servoj_lookahead_time : Option ℚ)
    (non_blocking_read : Option Bool) (reverse_ip : Option String)
    (trajectory_port script_command_port : Option ℕ)
    (force_mode_damping force_mode_gain_scaling : Option ℚ)
    (deafult_payload_mass default_payload_cog_x default_payload_cog_y
      default_payload_cog_z : Option ℚ) : UrDriverConfig :=
  { robot_ip := robot_ip
    script_file := script_file
    output_recipe_file := output_recipe_file
    input_recipe_file := input_recipe_file
    handle_program_state := handle_program_state
    headless_mode := headless_mode
    tool_comm_setup := tool_comm_setup
    calibration_checksum := calibration_checksum.getD ""
    reverse_port := reverse_port.getD 50001
    script_sender_port := script_sender_port.getD 50002
    servoj_gain := servoj_gain.getD 2000
    servoj_lookahead_time := servoj_lookahead_time.getD (3 / 100)
    non_blocking_read := non_blocking_read.getD false
    reverse_ip := reverse_ip.getD ""
    trajectory_port := trajectory_port.getD 50003
    script_command_port := script_command_port.getD 50004
    force_mode_damping := force_mode_damping.getD (1 / 40)
    force_mode_gain_scaling := force_mode_gain_scaling.getD (1 / 2)
    default_payload_mass := deafult_payload_mass.getD 0
    default_payload_cog_x := default_payload_cog_x.getD 0
    default_payload_cog_y := default_payload_cog_y.getD 0
    default_payload_cog_z := default_payload_cog_z.getD 0 }

/-- The `UrDriver` constructor taking a tool communication setup but no
calibration checksum (header lines 100-107).  Default arguments are taken from
the source declaration; its implementation is not in the sources, so the
resolved configuration records an empty expected checksum, modelled from the
spec (no checksum is supplied, so none can be expected). -/
def urDriverCtorNoChecksum (robot_ip script_file output_recipe_file input_recipe_file : String)
    (handle_program_state : ProgramStateCallback) (headless_mode : Bool)
    (tool_comm_setup : Option ToolCommSetup)
    (reverse_port script_sender_port : Option ℕ)
    (servoj_gain : Option ℤ) (servoj_lookahead_time : Option ℚ)
    (non_blocking_read : Option Bool) (reverse_ip : Option String)
    (trajectory_port script_command_port : Option ℕ)
    (force_mode_damping force_mode_gain_scaling : Option ℚ)
    (deafult_payload_mass default_payload_cog_x default_payload_cog_y
      default_payload_cog_z : Option ℚ) : UrDriverConfig :=
  urDriverCtorFull robot_ip script_file output_recipe_file input_recipe_file
    handle_program_state headless_mode tool_comm_setup none
    reverse_port script_sender_port servoj_gain servoj_lookahead_time
    non_blocking_read reverse_ip trajectory_port script_command_port
    force_mode_damping force_mode_gain_scaling
    deafult_payload_mass default_payload_cog_x default_payload_cog_y
    default_payload_cog_z

/-- The convenience `UrDriver` constructor omitting the tool communication
setup and the payload parameters (header lines 175-187).  Its body is in the
source: it first resolves its own default arguments (identical to the full
constructor's), then delegates to the full constructor passing an empty
`std::unique_ptr<ToolCommSetup>{}` and every resolved argument through
`force_mode_gain_scaling`; the payload arguments are omitted in the delegation,
so the full constructor's defaults apply to them. -/
def urDriverCtorConvenience (robot_ip script_file output_recipe_file input_recipe_file : String)
    (handle_program_state : ProgramStateCallback) (headless_mode : Bool)
    (calibration_checksum : Option String)
    (reverse_port script_sender_port : Option ℕ)
    (servoj_gain : Option ℤ) (servoj_lookahead_time : Option ℚ)
    (non_blocking_read : Option Bool) (reverse_ip : Option String)
    (trajectory_port script_command_port : Option ℕ)
    (force_mode_damping force_mode_gain_scaling : Option ℚ) : UrDriverConfig :=
  urDriverCtorFull robot_ip script_file output_recipe_file input_recipe_file
    handle_program_state headless_mode none
    (some (calibration_checksum.getD ""))
    (some (reverse_port.getD 50001)) (some (script_sender_port.getD 50002))
    (some (servoj_gain.getD 2000)) (some (servoj_lookahead_time.getD (3 / 100)))
    (some (non_blocking_read.getD false)) (some (reverse_ip.getD ""))
    (some (trajectory_port.getD 50003)) (some (script_command_port.getD 50004))
    (some (force_mode_damping.getD (1 / 40)))
    (some (force_mode_gain_scaling.getD (1 / 2)))
    none none none none

/-- The claim-side reading of the convenience overload: calling the full
constructor with a null `ToolCommSetup`, default payload mass and
centre-of-gravity components all equal to 0.0, and every other argument
forwarded unchanged. -/
def urDriverCtorConvenienceSpec (robot_ip script_file output_recipe_file input_recipe_file : String)
    (handle_program_state : ProgramStateCallback) (headless_mode : Bool)
    (calibration_checksum : Option String)
    (reverse_port script_sender_port : Option ℕ)
    (servoj_gain : Option ℤ) (servoj_lookahead_time : Option ℚ)
    (non_blocking_read : Option Bool) (reverse_ip : Option String)
    (trajectory_port script_command_port : Option ℕ)
    (force_mode_damping force_mode_gain_scaling : Option ℚ) : UrDriverConfig :=
  urDriverCtorFull robot_ip script_file output_recipe_file input_recipe_file
    handle_program_state headless_mode none
    calibration_checksum reverse_port script_sender_port
    servoj_gain servoj_lookahead_time non_blocking_read reverse_ip
    trajectory_port script_command_port force_mode_damping force_mode_gain_scaling
    (some 0) (some 0) (some 0) (some 0)

/-- What the robot reports during driver startup, read from the primary/RTDE
status streams: the control-cycle frequency, the software version and the
kinematics calibration checksum. -/
structure RobotEnv where
  controlFrequency : ℕ
  version : VersionInformation
  reportedChecksum : String
deriving DecidableEq, Repr

/-- The driver state: the fields of `UrDriver` that the modelled operations
read or write.  `rtdeCommunicationStarted` records whether
`startRTDECommunication()` has been called. -/
structure UrDriverModel where
  rtde_frequency_ : ℕ
  robot_version_ : VersionInformation
  config : UrDriverConfig
  rtdeCommunicationStarted : Bool
  rtdePipeline : RtdePipeline
  reverse_interface_ : ReverseInterfaceState
  trajectory_interface_ : TrajectoryInterfaceState
  script_command_interface_ : ScriptCommandInterfaceState
  calibration : CalibrationState

/-- Modelled from the spec: driver construction (the constructor body is not in
the sources).  The orchestrator opens the cyclic channel, reads version and
calibration information, and constructs the reverse, trajectory and
script-command channels; cyclic RTDE streaming is NOT started — that requires
the separate explicit `startRTDECommunication()` call. -/
def mkUrDriver (cfg : UrDriverConfig) (env : RobotEnv) : UrDriverModel :=
  { rtde_frequency_ := env.controlFrequency
    robot_version_ := env.version
    config := cfg
    rtdeCommunicationStarted := false
    rtdePipeline := { latestBuffered := none }
    reverse_interface_ := { clientConnected := false, sentFrames := [] }
    trajectory_interface_ := { phase := .idle, clientConnected := false, sentPointCount := 0 }
    script_command_interface_ := { clientConnected := false, sentCommands := [] }
    calibration := { reportedChecksum := some env.reportedChecksum } }

namespace UrDriverModel

/-- `UrDriver::startRTDECommunication()` (modelled from the spec): starts the
cyclic RTDE streaming; a separate, explicit call, never performed by the
constructor. -/
def startRTDECommunication (d : UrDriverModel) : UrDriverModel :=
  { d with rtdeCommunicationStarted := true }

/-- Arrival of one cyclic frame at the driver.  Frames flow only once RTDE
communication has been started; before that, nothing reaches the pipeline. -/
def deliverCyclicFrame (d : UrDriverModel) (f : DataPackage) : UrDriverModel :=
  if d.rtdeCommunicationStarted then
    { d with rtdePipeline := d.rtdePipeline.receiveFrame f }
  else
    d

/-- Arrival of a sequence of cyclic frames at the driver, in order. -/
def deliverAll (d : UrDriverModel) (fs : List DataPackage) : UrDriverModel :=
  fs.foldl deliverCyclicFrame d

/-- `UrDriver::getDataPackage()`: forwards to the cyclic channel's poll,
returning the latest data package, or none if no package arrived within the
preconfigured time window. -/
def getDataPackage (d : UrDriverModel) : Option DataPackage × UrDriverModel :=
  let r := d.rtdePipeline.poll
  (r.1, { d with rtdePipeline := r.2 })

/-- `UrDriver::getControlFrequency()`: inline in the header, returns the
stored `rtde_frequency_` field; `const`, so the driver state is unchanged. -/
def getControlFrequency (d : UrDriverModel) : ℕ × UrDriverModel :=
  (d.rtde_frequency_, d)

/-- `UrDriver::getVersion()`: inline in the header, returns the stored
`robot_version_` field; the driver state is unchanged. -/
def getVersion (d : UrDriverModel) : VersionInformation × UrDriverModel :=
  (d.robot_version_, d)

/-- `UrDriver::writeJointCommand`: forwards to the reverse channel, writing a
joint command frame tagged with the control mode and the receive timeout. -/
def writeJointCommand (d : UrDriverModel) (values : vector6d_t)
    (control_mode : ControlMode) (robot_receive_timeout : RobotReceiveTimeout) :
    Bool × UrDriverModel :=
  let r := d.reverse_interface_.write values control_mode robot_receive_timeout
  (r.1, { d with reverse_interface_ := r.2 })

/-- `UrDriver::writeKeepalive`: writes a keepalive-only frame (idle mode, zero
values) over the reverse channel. -/
def writeKeepalive (d : UrDriverModel) (robot_receive_timeout : RobotReceiveTimeout) :
    Bool × UrDriverModel :=
  d.writeJointCommand (fun _ => 0) ControlMode.idleKeepalive robot_receive_timeout

/-- `UrDriver::stopControl()`: writes a stop directive over the reverse
channel, signaling the robot-side program to stop listening. -/
def stopControl (d : UrDriverModel) : Bool × UrDriverModel :=
  d.writeJointCommand (fun _ => 0) ControlMode.stopped RobotReceiveTimeout.off

/-- `UrDriver::writeTrajectoryControlMessage`: forwards to the trajectory
channel. -/
def writeTrajectoryControlMessage (d : UrDriverModel)
    (trajectory_action : TrajectoryControlMessage) (point_number : ℕ)
    (_robot_receive_timeout : RobotReceiveTimeout) : Bool × UrDriverModel :=
  let r := d.trajectory_interface_.writeControlMessage trajectory_action point_number
  (r.1, { d with trajectory_interface_ := r.2 })

/-- `UrDriver::writeTrajectoryPoint`: writes one plain trajectory point (joint
or cartesian positions, goal time, blend radius) onto the trajectory channel. -/
def writeTrajectoryPoint (d : UrDriverModel) (_positions : vector6d_t)
    (_cartesian : Bool) (_goal_time _blend_radius : ℚ) : Bool × UrDriverModel :=
  let r := d.trajectory_interface_.writePoint
  (r.1, { d with trajectory_interface_ := r.2 })

/-- `UrDriver::writeTrajectorySplinePoint` (quintic overload): positions,
velocities and accelerations with a goal time. -/
def writeTrajectorySplinePointQuintic (d : UrDriverModel)
    (_positions _velocities _accelerations : vector6d_t) (_goal_time : ℚ) :
    Bool × UrDriverModel :=
  let r := d.trajectory_interface_.writePoint
  (r.1, { d with trajectory_interface_ := r.2 })

/-- `UrDriver::writeTrajectorySplinePoint` (cubic overload): positions and
velocities with a goal time. -/
def writeTrajectorySplinePointCubic (d : UrDriverModel)
    (_positions _velocities : vector6d_t) (_goal_time : ℚ) : Bool × UrDriverModel :=
  let r := d.trajectory_interface_.writePoint
  (r.1, { d with trajectory_interface_ := r.2 })

/-- `UrDriver::writeTrajectorySplinePoint` (quadratic overload): positions
with a goal time. -/
def writeTrajectorySplinePointQuadratic (d : UrDriverModel)
    (_positions : vector6d_t) (_goal_time : ℚ) : Bool × UrDriverModel :=
  let r := d.trajectory_interface_.writePoint
  (r.1, { d with trajectory_interface_ := r.2 })

/-- Robot-reported trajectory completion reaching the driver; the second
component lists the trajectory-done callback invocations this event caused. -/
def trajectoryDoneEvent (d : UrDriverModel) (result : TrajectoryResult) :
    UrDriverModel × List TrajectoryResult :=
  let r := d.trajectory_interface_.robotReportsDone result
  ({ d with trajectory_interface_ := r.1 }, r.2)

/-- `UrDriver::setPayload`: forwards a set-payload command over the
script-command channel. -/
def setPayload (d : UrDriverModel) (mass : ℚ) (cog : vector3d_t) : Bool × UrDriverModel :=
  let r := d.script_command_interface_.sendCommand (.setPayloadCmd mass cog)
  (r.1, { d with script_command_interface_ := r.2 })

/-- `UrDriver::zeroFTSensor`: forwards a zero-force-torque-sensor command over
the script-command channel. -/
def zeroFTSensor (d : UrDriverModel) : Bool × UrDriverModel :=
  let r := d.script_command_interface_.sendCommand .zeroFtSensorCmd
  (r.1, { d with script_command_interface_ := r.2 })

/-- `UrDriver::setToolVoltage`: forwards a set-tool-voltage command over the
script-command channel. -/
def setToolVoltage (d : UrDriverModel) (voltage : ToolVoltage) : Bool × UrDriverModel :=
  let r := d.script_command_interface_.sendCommand (.setToolVoltageCmd voltage)
  (r.1, { d with script_command_interface_ := r.2 })

/-- `UrDriver::startForceMode`: forwards a start-force-mode command over the
script-command channel. -/
def startForceMode (d : UrDriverModel) (task_frame : vector6d_t)
    (selection_vector : vector6uint32_t) (wrench : vector6d_t) (type : ℕ)
    (limits : vector6d_t) : Bool × UrDriverModel :=
  let r := d.script_command_interface_.sendCommand
    (.startForceModeCmd task_frame selection_vector wrench type limits)
  (r.1, { d with script_command_interface_ := r.2 })

/-- `UrDriver::endForceMode`: forwards an end-force-mode command over the
script-command channel. -/
def endForceMode (d : UrDriverModel) : Bool × UrDriverModel :=
  let r := d.script_command_interface_.sendCommand .endForceModeCmd
  (r.1, { d with script_command_interface_ := r.2 })

/-- `UrDriver::startToolContact`: forwards a start-tool-contact command over
the script-command channel. -/
def startToolContact (d : UrDriverModel) : Bool × UrDriverModel :=
  let r := d.script_command_interface_.sendCommand .startToolContactCmd
  (r.1, { d with script_command_interface_ := r.2 })

/-- `UrDriver::endToolContact`: forwards an end-tool-contact command over the
script-command channel. -/
def endToolContact (d : UrDriverModel) : Bool × UrDriverModel :=
  let r := d.script_command_interface_.sendCommand .endToolContactCmd
  (r.1, { d with script_command_interface_ := r.2 })

/-- `UrDriver::setGravity`: forwards a set-gravity command over the
script-command channel. -/
def setGravity (d : UrDriverModel) (gravity : vector3d_t) : Bool × UrDriverModel :=
  let r := d.script_command_interface_.sendCommand (.setGravityCmd gravity)
  (r.1, { d with script_command_interface_ := r.2 })

/-- `UrDriver::startPayloadEstimation`: forwards a start-payload-estimation
command over the script-command channel. -/
def startPayloadEstimation (d : UrDriverModel) (command_type : PayloadEstimType)
    (move_distance secondary_move_distance move_speed : ℚ) : Bool × UrDriverModel :=
  let r := d.script_command_interface_.sendCommand
    (.startPayloadEstimationCmd command_type move_distance secondary_move_distance move_speed)
  (r.1, { d with script_command_interface_ := r.2 })

/-- `UrDriver::tryReconnectScriptCommandInterface` at driver level. -/
def tryReconnectScriptCommandInterface (d : UrDriverModel) (robotProgramUp : Bool) :
    UrDriverModel :=
  { d with script_command_interface_ := d.script_command_interface_.tryReconnect robotProgramUp }

/-- `UrDriver::checkCalibration` (modelled from the spec and the header doc):
true exactly when the robot-reported calibration checksum has been read and
equals the expected one; false on mismatch or when the check was not yet
performed.  Total, so it never throws. -/
def checkCalibration (d : UrDriverModel) (checksum : String) : Bool :=
  match d.calibration.reportedChecksum with
  | some actual => actual = checksum
  | none => false

/-- Writes `n` consecutive plain trajectory points with the given arguments,
collecting the boolean result of each write in order. -/
def writePointSeq (d : UrDriverModel) (positions : vector6d_t) (cartesian : Bool)
    (goal_time blend_radius : ℚ) : ℕ → List Bool × UrDriverModel
  | 0 => ([], d)
  | Nat.succ k =>
    let r := d.writeTrajectoryPoint positions cartesian goal_time blend_radius
    let rest := writePointSeq r.2 positions cartesian goal_time blend_radius k
    (r.1 :: rest.1, rest.2)

/-- Events observable on the trajectory channel during one session: caller
writes and asynchronous robot reports. -/
inductive TrajEvent where
  | startMsg (point_number : ℕ)
  | pointWrite (positions : vector6d_t) (cartesian : Bool) (goal_time blend_radius : ℚ)
  | cancelMsg
  | robotDone (result : TrajectoryResult)

/-- One trajectory event applied to the driver; the second component lists the
trajectory-done callback invocations the event caused. -/
def trajStep (d : UrDriverModel) : TrajEvent → UrDriverModel × List TrajectoryResult
  | .startMsg n =>
    ((d.writeTrajectoryControlMessage .trajectoryStart n (RobotReceiveTimeout.millisec 200)).2, [])
  | .pointWrite p c gt br => ((d.writeTrajectoryPoint p c gt br).2, [])
  | .cancelMsg =>
    ((d.writeTrajectoryControlMessage .trajectoryCancel 0 (RobotReceiveTimeout.millisec 200)).2, [])
  | .robotDone r => d.trajectoryDoneEvent r

/-- Runs a sequence of trajectory events, concatenating the callback
invocations they cause, in order. -/
def trajRun (d : UrDriverModel) : List TrajEvent → UrDriverModel × List TrajectoryResult
  | [] => (d, [])
  | e :: es =>
    let s := trajStep d e
    let rest := trajRun s.1 es
    (rest.1, s.2 ++ rest.2)

/-- The public driver operations, with their arguments, as one event type: the
modelled mutating API surface of `UrDriver`. -/
inductive DriverOp where
  | startRTDE
  | deliverCyclic (f : DataPackage)
  | pollCyclic
  | jointCommand (values : vector6d_t) (mode : ControlMode) (t : RobotReceiveTimeout)
  | keepalive (t : RobotReceiveTimeout)
  | stopControlOp
  | trajControl (action : TrajectoryControlMessage) (n : ℕ) (t : RobotReceiveTimeout)
  | trajPoint (positions : vector6d_t) (cartesian : Bool) (goal_time blend_radius : ℚ)
  | trajSplineQuintic (p v a : vector6d_t) (goal_time : ℚ)
  | trajSplineCubic (p v : vector6d_t) (goal_time : ℚ)
  | trajSplineQuadratic (p : vector6d_t) (goal_time : ℚ)
  | trajDone (result : TrajectoryResult)
  | payload (mass : ℚ) (cog : vector3d_t)
  | zeroFt
  | toolVoltage (voltage : ToolVoltage)
  | forceModeStart (task_frame : vector6d_t) (selection_vector : vector6uint32_t)
      (wrench : vector6d_t) (type : ℕ) (limits : vector6d_t)
  | forceModeEnd
  | toolContactStart
  | toolContactEnd
  | gravity (g : vector3d_t)
  | payloadEstimation (command_type : PayloadEstimType) (d1 d2 speed : ℚ)
  | reconnectScriptCommand (robotProgramUp : Bool)
  | calibrationCheck (checksum : String)

/-- Applies one driver operation to the driver state (results discarded). -/
def stepDriver (d : UrDriverModel) : DriverOp → UrDriverModel
  | .startRTDE => d.startRTDECommunication
  | .deliverCyclic f => d.deliverCyclicFrame f
  | .pollCyclic => d.getDataPackage.2
  | .jointCommand v m t => (d.writeJointCommand v m t).2
  | .keepalive t => (d.writeKeepalive t).2
  | .stopControlOp => d.stopControl.2
  | .trajControl a n t => (d.writeTrajectoryControlMessage a n t).2
  | .trajPoint p c gt br => (d.writeTrajectoryPoint p c gt br).2
  | .trajSplineQuintic p v a gt => (d.writeTrajectorySplinePointQuintic p v a gt).2
  | .trajSplineCubic p v gt => (d.writeTrajectorySplinePointCubic p v gt).2
  | .trajSplineQuadratic p gt => (d.writeTrajectorySplinePointQuadratic p gt).2
  | .trajDone r => (d.trajectoryDoneEvent r).1
  | .payload m cog => (d.setPayload m cog).2
  | .zeroFt => d.zeroFTSensor.2
  | .toolVoltage v => (d.setToolVoltage v).2
  | .forceModeStart tf sv w ty lim => (d.startForceMode tf sv w ty lim).2
  | .forceModeEnd => d.endForceMode.2
  | .toolContactStart => d.startToolContact.2
  | .toolContactEnd => d.endToolContact.2
  | .gravity g => (d.setGravity g).2
  | .payloadEstimation ct d1 d2 sp => (d.startPayloadEstimation ct d1 d2 sp).2
  | .reconnectScriptCommand up => d.tryReconnectScriptCommandInterface up
  | .calibrationCheck _ => d

/-- Applies a sequence of driver operations, in order. -/
def runOps (d : UrDriverModel) (ops : List DriverOp) : UrDriverModel :=
  ops.foldl stepDriver d

end UrDriverModel

/-- A sample robot-reported environment used to evaluate the model on concrete
inputs. -/
def sampleEnv : RobotEnv :=
  { controlFrequency := 500
    version := { major := 5, minor := 11, bugfix := 0, build := 1000 }
    reportedChecksum := "calib_12788084448423163542" }

/-- A sample resolved configuration: the full constructor with every defaulted
argument omitted. -/
def sampleConfig : UrDriverConfig :=
  urDriverCtorFull "192.168.56.101" "external_control.urscript" "output_recipe.txt"
    "input_recipe.txt" { handleId := 0 } true none none none none none none
    none none none none none none none none none none

/-- A freshly constructed sample driver. -/
def sampleDriver : UrDriverModel := mkUrDriver sampleConfig sampleEnv

/-- The sample driver once the robot-side program has connected to the
reverse, trajectory and script-command servers. -/
def sampleDriverConnected : UrDriverModel :=
  { sampleDriver with
      reverse_interface_ := { clientConnected := true, sentFrames := [] }
      trajectory_interface_ := { phase := .idle, clientConnected := true, sentPointCount := 0 }
      script_command_interface_ := { clientConnected := true, sentCommands := [] } }

/-- A sample cyclic frame. -/
def samplePackage1 : DataPackage := [("timestamp", 1), ("actual_q", 0)]

/-- A later sample cyclic frame. -/
def samplePackage2 : DataPackage := [("timestamp", 2), ("actual_q", 1)]

/-- Receiving a sequence of frames ending in `f` leaves exactly `f` buffered:
each arrival discards the previously buffered frame. -/
lemma RtdePipeline.receiveAll_append_last (p : RtdePipeline) (fs : List DataPackage)
    (f : DataPackage) : p.receiveAll (fs ++ [f]) = { latestBuffered := some f } := by
  simp [RtdePipeline.receiveAll, List.foldl_append, RtdePipeline.receiveFrame]

/-- Once RTDE communication is started, delivering frames to the driver acts
as `receiveAll` on the pipeline and keeps the communication started. -/
lemma UrDriverModel.deliverAll_started (fs : List DataPackage) :
    ∀ d : UrDriverModel, d.rtdeCommunicationStarted = true →
      (d.deliverAll fs).rtdePipeline = d.rtdePipeline.receiveAll fs
      ∧ (d.deliverAll fs).rtdeCommunicationStarted = true := by
  induction fs with
  | nil =>
    intro d hd
    exact ⟨rfl, hd⟩
  | cons f fs ih =>
    intro d hd
    have hstep : d.deliverCyclicFrame f
        = { d with rtdePipeline := d.rtdePipeline.receiveFrame f } := by
      simp [UrDriverModel.deliverCyclicFrame, hd]
    have h1 : d.deliverAll (f :: fs)
        = ({ d with rtdePipeline := d.rtdePipeline.receiveFrame f } : UrDriverModel).deliverAll fs := by
      simp [UrDriverModel.deliverAll, hstep]
    rw [h1]
    have := ih { d with rtdePipeline := d.rtdePipeline.receiveFrame f } hd
    exact ⟨by rw [this.1]; rfl, this.2⟩

/-- A rejected point write leaves the driver unchanged: outside Streaming, or
with the declared point budget exhausted. -/
lemma writeTrajectoryPoint_rejected (d : UrDriverModel) (p : vector6d_t) (c : Bool)
    (gt br : ℚ) (h : d.trajectory_interface_.phase = .idle
      ∨ d.trajectory_interface_.phase = .streaming 0) :
    d.writeTrajectoryPoint p c gt br = (false, d) := by
  rcases h with h | h <;>
    simp [UrDriverModel.writeTrajectoryPoint, TrajectoryInterfaceState.writePoint, h]

/-- An accepted point write: while streaming with a positive budget and a
connected client, the write succeeds, decrements the budget and preserves the
connection. -/
lemma writeTrajectoryPoint_accepted (d : UrDriverModel) (p : vector6d_t) (c : Bool)
    (gt br : ℚ) (m : ℕ) (hconn : d.trajectory_interface_.clientConnected = true)
    (hph : d.trajectory_interface_.phase = .streaming (m + 1)) :
    (d.writeTrajectoryPoint p c gt br).1 = true
    ∧ (d.writeTrajectoryPoint p c gt br).2.trajectory_interface_.phase = .streaming m
    ∧ (d.writeTrajectoryPoint p c gt br).2.trajectory_interface_.clientConnected = true := by
  refine ⟨?_, ?_, ?_⟩ <;>
    simp [UrDriverModel.writeTrajectoryPoint, TrajectoryInterfaceState.writePoint, hph, hconn]

/-- While streaming with `m` declared points outstanding and a connected
client, a run of `k` point writes accepts the first `min k m` and rejects the
rest. -/
lemma writePointSeq_spec (positions : vector6d_t) (c : Bool) (gt br : ℚ) :
    ∀ (k : ℕ) (d : UrDriverModel) (m : ℕ),
      d.trajectory_interface_.clientConnected = true →
      d.trajectory_interface_.phase = .streaming m →
      (UrDriverModel.writePointSeq d positions c gt br k).1
        = List.replicate (min k m) true ++ List.replicate (k - m) false := by
  intro k
  induction k with
  | zero =>
    intro d m _ _
    simp [UrDriverModel.writePointSeq]
  | succ k ih =>
    intro d m hconn hph
    cases m with
    | zero =>
      have hw := writeTrajectoryPoint_rejected d positions c gt br (Or.inr hph)
      have hrest := ih d 0 hconn hph
      simp [UrDriverModel.writePointSeq, hw, hrest, List.replicate_succ]
    | succ m' =>
      have hw := writeTrajectoryPoint_accepted d positions c gt br m' hconn hph
      have hrest := ih (d.writeTrajectoryPoint positions c gt br).2 m' hw.2.2 hw.2.1
      simp [UrDriverModel.writePointSeq, hw.1, hrest, Nat.succ_min_succ, Nat.succ_sub_succ,
        List.replicate_succ]

/-- Running an appended event list splits into running the two parts in
sequence, concatenating the callback invocations. -/
lemma trajRun_append (es fs : List UrDriverModel.TrajEvent) :
    ∀ d : UrDriverModel,
      UrDriverModel.trajRun d (es ++ fs)
        = ((UrDriverModel.trajRun (UrDriverModel.trajRun d es).1 fs).1,
           (UrDriverModel.trajRun d es).2
             ++ (UrDriverModel.trajRun (UrDriverModel.trajRun d es).1 fs).2) := by
  induction es with
  | nil =>
    intro d
    simp [UrDriverModel.trajRun]
  | cons e es ih =>
    intro d
    simp [UrDriverModel.trajRun, ih, List.append_assoc]

/-- A list of point-write events built from a list of point arguments. -/
def pointEventList (ps : List (vector6d_t × Bool × ℚ × ℚ)) :
    List UrDriverModel.TrajEvent :=
  ps.map (fun q => UrDriverModel.TrajEvent.pointWrite q.1 q.2.1 q.2.2.1 q.2.2.2)

/-- Point writes never invoke the trajectory-done callback, and leave the
channel streaming with a connected client. -/
lemma trajRun_points (ps : List (vector6d_t × Bool × ℚ × ℚ)) :
    ∀ (d : UrDriverModel) (m : ℕ),
      d.trajectory_interface_.clientConnected = true →
      d.trajectory_interface_.phase = .streaming m →
      (UrDriverModel.trajRun d (pointEventList ps)).2 = []
      ∧ (UrDriverModel.trajRun d (pointEventList ps)).1.trajectory_interface_.clientConnected = true
      ∧ ∃ m', (UrDriverModel.trajRun d (pointEventList ps)).1.trajectory_interface_.phase
          = .streaming m' := by
  induction ps with
  | nil =>
    intro d m hconn hph
    exact ⟨rfl, hconn, m, hph⟩
  | cons q ps ih =>
    intro d m hconn hph
    have hstep : UrDriverModel.trajRun d (pointEventList (q :: ps))
        = ((UrDriverModel.trajRun (d.writeTrajectoryPoint q.1 q.2.1 q.2.2.1 q.2.2.2).2
              (pointEventList ps)).1,
           (UrDriverModel.trajRun (d.writeTrajectoryPoint q.1 q.2.1 q.2.2.1 q.2.2.2).2
              (pointEventList ps)).2) := by
      simp [pointEventList, UrDriverModel.trajRun, UrDriverModel.trajStep]
    cases m with
    | zero =>
      have hw := writeTrajectoryPoint_rejected d q.1 q.2.1 q.2.2.1 q.2.2.2 (Or.inr hph)
      have hrest := ih d 0 hconn hph
      rw [hstep, hw]
      exact ⟨hrest.1, hrest.2.1, hrest.2.2⟩
    | succ m' =>
      have hw := writeTrajectoryPoint_accepted d q.1 q.2.1 q.2.2.1 q.2.2.2 m' hconn hph
      have hrest := ih (d.writeTrajectoryPoint q.1 q.2.1 q.2.2.1 q.2.2.2).2 m' hw.2.2 hw.2.1
      rw [hstep]
      exact ⟨hrest.1, hrest.2.1, hrest.2.2⟩

/-- C1: for every realtime-tagged control mode (position or force control) and
every timeout strictly greater than 1000 ms, `writeJointCommand` returns false
and is rejected before any socket I/O occurs — the driver state, and in
particular the list of frames written to the reverse channel, is unchanged;
keepalive/idle-mode writes accept longer or unbounded timeouts (on a connected
reverse channel they succeed for every timeout). -/
theorem writeJointCommand_realtime_timeout_rejected
    (d e : UrDriverModel) (values : vector6d_t) (mode : ControlMode) (t : ℕ)
    (tl : RobotReceiveTimeout)
    (hm : mode.isRealtime = true) (ht : 1000 < t)
    (hconn : e.reverse_interface_.clientConnected = true) :
    d.writeJointCommand values mode (RobotReceiveTimeout.millisec t) = (false, d)
    ∧ (d.writeJointCommand values mode (RobotReceiveTimeout.millisec t)).2.reverse_interface_.sentFrames
        = d.reverse_interface_.sentFrames
    ∧ (e.writeKeepalive tl).1 = true := by
  have h1 : d.writeJointCommand values mode (RobotReceiveTimeout.millisec t) = (false, d) := by
    simp [UrDriverModel.writeJointCommand, ReverseInterfaceState.write,
      RobotReceiveTimeout.exceedsRealtimeCap, RobotReceiveTimeout.millisec, hm, ht]
  refine ⟨h1, by rw [h1], ?_⟩
  simp [UrDriverModel.writeKeepalive, UrDriverModel.writeJointCommand,
    ReverseInterfaceState.write, ControlMode.isRealtime, hconn]

/-- Witness for C1: a 1001 ms timeout in joint-position mode is rejected with
the driver unchanged, while a keepalive with an unbounded timeout succeeds. -/
theorem writeJointCommand_realtime_timeout_rejected_witness :
    sampleDriverConnected.writeJointCommand (fun _ => 0) ControlMode.jointPosition
        (RobotReceiveTimeout.millisec 1001) = (false, sampleDriverConnected)
    ∧ (sampleDriverConnected.writeKeepalive RobotReceiveTimeout.off).1 = true := by
  have h := writeJointCommand_realtime_timeout_rejected sampleDriverConnected
    sampleDriverConnected (fun _ => 0) ControlMode.jointPosition 1001
    RobotReceiveTimeout.off rfl (by decide) rfl
  exact ⟨h.1, h.2.2⟩

/-- C4: `checkCalibration(expected)` returns true exactly when the
robot-reported calibration checksum was read and equals `expected`; it returns
false both on mismatch and when the check has not yet been performed.  Being a
total boolean-valued function, it returns without throwing in every case. -/
theorem checkCalibration_true_iff_match (d : UrDriverModel) (checksum : String) :
    d.checkCalibration checksum = true ↔ d.calibration.reportedChecksum = some checksum := by
  unfold UrDriverModel.checkCalibration
  cases h : d.calibration.reportedChecksum with
  | none => simp
  | some actual => simp

/-- C7: constructing a `UrDriver` never starts cyclic RTDE streaming: after
construction the started flag is down, a cyclic frame delivered before
`startRTDECommunication()` does not reach the driver and `getDataPackage`
finds nothing; after the explicit `startRTDECommunication()` call frames flow. -/
theorem construction_requires_explicit_rtde_start (cfg : UrDriverConfig) (env : RobotEnv)
    (f : DataPackage) :
    (mkUrDriver cfg env).rtdeCommunicationStarted = false
    ∧ (mkUrDriver cfg env).deliverCyclicFrame f = mkUrDriver cfg env
    ∧ ((mkUrDriver cfg env).getDataPackage).1 = none
    ∧ ((mkUrDriver cfg env).startRTDECommunication).rtdeCommunicationStarted = true
    ∧ (((mkUrDriver cfg env).startRTDECommunication).deliverCyclicFrame f).rtdePipeline.latestBuffered
        = some f := by
  refine ⟨rfl, ?_, rfl, rfl, ?_⟩
  · simp [mkUrDriver, UrDriverModel.deliverCyclicFrame]
  · simp [mkUrDriver, UrDriverModel.startRTDECommunication, UrDriverModel.deliverCyclicFrame,
      RtdePipeline.receiveFrame]

/-- C8: when the caller omits the port arguments, every `UrDriver` constructor
defaults the reverse port to 50001, the script sender port to 50002, the
trajectory port to 50003 and the script-command port to 50004. -/
theorem urDriver_constructor_default_ports
    (rip sf orf irf : String) (hps : ProgramStateCallback) (hm : Bool)
    (tcs : Option ToolCommSetup) (cs : Option String)
    (g : Option ℤ) (la : Option ℚ) (nbr : Option Bool) (rvip : Option String)
    (fmd fmgs pm px py pz : Option ℚ) :
    (let cfg := (urDriverCtorFull rip sf orf irf hps hm tcs cs none none g la nbr rvip
        none none fmd fmgs pm px py pz);
      cfg.reverse_port = 50001 ∧ cfg.script_sender_port = 50002
        ∧ cfg.trajectory_port = 50003 ∧ cfg.script_command_port = 50004)
    ∧ (let cfg := (urDriverCtorNoChecksum rip sf orf irf hps hm tcs none none g la nbr rvip
        none none fmd fmgs pm px py pz);
      cfg.reverse_port = 50001 ∧ cfg.script_sender_port = 50002
        ∧ cfg.trajectory_port = 50003 ∧ cfg.script_command_port = 50004)
    ∧ (let cfg := (urDriverCtorConvenience rip sf orf irf hps hm cs none none g la nbr rvip
        none none fmd fmgs);
      cfg.reverse_port = 50001 ∧ cfg.script_sender_port = 50002
        ∧ cfg.trajectory_port = 50003 ∧ cfg.script_command_port = 50004) :=
  ⟨⟨rfl, rfl, rfl, rfl⟩, ⟨rfl, rfl, rfl, rfl⟩, ⟨rfl, rfl, rfl, rfl⟩⟩

/-- C9: the convenience constructor that omits `tool_comm_setup` and the
payload parameters is equivalent, for every argument tuple, to calling the
full constructor with a null `ToolCommSetup` and payload mass and
centre-of-gravity components all 0, every other argument forwarded unchanged. -/
theorem urDriverCtorConvenience_refines_full
    (rip sf orf irf : String) (hps : ProgramStateCallback) (hm : Bool)
    (cs : Option String) (rp ssp : Option ℕ) (g : Option ℤ) (la : Option ℚ)
    (nbr : Option Bool) (rvip : Option String) (tp scp : Option ℕ)
    (fmd fmgs : Option ℚ) :
    urDriverCtorConvenience rip sf orf irf hps hm cs rp ssp g la nbr rvip tp scp fmd fmgs
      = urDriverCtorConvenienceSpec rip sf orf irf hps hm cs rp ssp g la nbr rvip tp scp
          fmd fmgs := by
  unfold urDriverCtorConvenience urDriverCtorConvenienceSpec urDriverCtorFull
  cases cs <;> cases rp <;> cases ssp <;> rfl

/-- C2: with the trajectory channel Idle and a connected client, every plain
or spline point write returns false and leaves the driver unchanged; cancel
and no-op control messages do not leave Idle — only `start` does, moving the
channel to Streaming with the declared count; and after `start N`, a run of
`N + 1` point writes accepts exactly the first `N` and rejects the
`(N+1)`-th. -/
theorem trajectory_streaming_gating
    (d : UrDriverModel) (p pv pa : vector6d_t) (c : Bool) (gt br : ℚ) (N : ℕ)
    (trcv : RobotReceiveTimeout)
    (hidle : d.trajectory_interface_.phase = .idle)
    (hconn : d.trajectory_interface_.clientConnected = true) :
    d.writeTrajectoryPoint p c gt br = (false, d)
    ∧ d.writeTrajectorySplinePointQuintic p pv pa gt = (false, d)
    ∧ d.writeTrajectorySplinePointCubic p pv gt = (false, d)
    ∧ d.writeTrajectorySplinePointQuadratic p gt = (false, d)
    ∧ (d.writeTrajectoryControlMessage .trajectoryCancel 0 trcv).2 = d
    ∧ (d.writeTrajectoryControlMessage .trajectoryNoop 0 trcv).2 = d
    ∧ (d.writeTrajectoryControlMessage .trajectoryStart N trcv).1 = true
    ∧ (d.writeTrajectoryControlMessage .trajectoryStart N trcv).2.trajectory_interface_.phase
        = .streaming N
    ∧ (UrDriverModel.writePointSeq
          (d.writeTrajectoryControlMessage .trajectoryStart N trcv).2 p c gt br (N + 1)).1
        = List.replicate N true ++ [false] := by
  have hstartPh : (d.writeTrajectoryControlMessage .trajectoryStart N trcv).2.trajectory_interface_.phase
      = .streaming N := by
    simp [UrDriverModel.writeTrajectoryControlMessage,
      TrajectoryInterfaceState.writeControlMessage, hidle, hconn]
  have hstartConn : (d.writeTrajectoryControlMessage .trajectoryStart N trcv).2.trajectory_interface_.clientConnected
      = true := by
    simp [UrDriverModel.writeTrajectoryControlMessage,
      TrajectoryInterfaceState.writeControlMessage, hidle, hconn]
  have hseq := writePointSeq_spec p c gt br (N + 1)
    (d.writeTrajectoryControlMessage .trajectoryStart N trcv).2 N hstartConn hstartPh
  have hmin : min (N + 1) N = N := min_eq_right (Nat.le_succ N)
  have hsub : N + 1 - N = 1 := by omega
  refine ⟨writeTrajectoryPoint_rejected d p c gt br (Or.inl hidle), ?_, ?_, ?_, ?_, ?_, ?_,
    hstartPh, ?_⟩
  · simp [UrDriverModel.writeTrajectorySplinePointQuintic,
      TrajectoryInterfaceState.writePoint, hidle]
  · simp [UrDriverModel.writeTrajectorySplinePointCubic,
      TrajectoryInterfaceState.writePoint, hidle]
  · simp [UrDriverModel.writeTrajectorySplinePointQuadratic,
      TrajectoryInterfaceState.writePoint, hidle]
  · simp [UrDriverModel.writeTrajectoryControlMessage,
      TrajectoryInterfaceState.writeControlMessage, hidle]
  · simp [UrDriverModel.writeTrajectoryControlMessage,
      TrajectoryInterfaceState.writeControlMessage, hidle]
  · simp [UrDriverModel.writeTrajectoryControlMessage,
      TrajectoryInterfaceState.writeControlMessage, hidle, hconn]
  · rw [hseq, hmin, hsub, List.replicate_one]

/-- Witness for C2: from a connected Idle channel, a point write is rejected,
`start 2` is accepted, and a run of three point writes is accepted-accepted-
rejected. -/
theorem trajectory_streaming_gating_witness :
    (sampleDriverConnected.writeTrajectoryPoint (fun _ => 0) false 0 (13 / 250)).1 = false
    ∧ (sampleDriverConnected.writeTrajectoryControlMessage .trajectoryStart 2
        (RobotReceiveTimeout.millisec 200)).1 = true
    ∧ (UrDriverModel.writePointSeq
        (sampleDriverConnected.writeTrajectoryControlMessage .trajectoryStart 2
          (RobotReceiveTimeout.millisec 200)).2 (fun _ => 0) false 0 (13 / 250) 3).1
        = [true, true, false] := by
  have h := trajectory_streaming_gating sampleDriverConnected (fun _ => 0) (fun _ => 0)
    (fun _ => 0) false 0 (13 / 250) 2 (RobotReceiveTimeout.millisec 200) rfl rfl
  refine ⟨by rw [h.1], h.2.2.2.2.2.2.1, ?_⟩
  rw [h.2.2.2.2.2.2.2.2]
  rfl

/-- C3: with RTDE communication started, after any non-empty sequence of
cyclic frame arrivals `getDataPackage` returns the most recently arrived
frame — never an older one, since each arrival discards the previously
buffered frame; and on a driver whose channel holds no unread frame (none
arrived within the window) it returns none. -/
theorem getDataPackage_returns_latest
    (d e : UrDriverModel) (fs : List DataPackage)
    (hstart : d.rtdeCommunicationStarted = true) (hne : fs ≠ [])
    (hempty : e.rtdePipeline.latestBuffered = none) :
    ((d.deliverAll fs).getDataPackage).1 = some (fs.getLast hne)
    ∧ (e.getDataPackage).1 = none := by
  constructor
  · have hda := UrDriverModel.deliverAll_started fs d hstart
    have h1 : ((d.deliverAll fs).getDataPackage).1
        = (d.deliverAll fs).rtdePipeline.latestBuffered := rfl
    rw [h1, hda.1]
    conv_lhs => rw [← List.dropLast_append_getLast hne]
    rw [RtdePipeline.receiveAll_append_last]
  · exact hempty

/-- Witness for C3: after two frames arrive, polling yields the second one;
the freshly constructed driver yields none. -/
theorem getDataPackage_returns_latest_witness :
    (((sampleDriver.startRTDECommunication).deliverAll
        [samplePackage1, samplePackage2]).getDataPackage).1 = some samplePackage2
    ∧ (sampleDriver.getDataPackage).1 = none := by
  have h := getDataPackage_returns_latest sampleDriver.startRTDECommunication sampleDriver
    [samplePackage1, samplePackage2] rfl (List.cons_ne_nil _ _) rfl
  refine ⟨?_, h.2⟩
  rw [h.1]
  rfl

/-- After a run of point writes on a streaming channel, a robot-reported
completion invokes the callback exactly once with the reported outcome and
returns the channel to Idle, keeping the client connected. -/
lemma trajRun_points_then_done (ps : List (vector6d_t × Bool × ℚ × ℚ))
    (res : TrajectoryResult) (d1 : UrDriverModel) (m : ℕ)
    (hconn : d1.trajectory_interface_.clientConnected = true)
    (hph : d1.trajectory_interface_.phase = .streaming m) :
    (UrDriverModel.trajRun d1
        (pointEventList ps ++ [UrDriverModel.TrajEvent.robotDone res])).2 = [res]
    ∧ (UrDriverModel.trajRun d1
        (pointEventList ps ++ [UrDriverModel.TrajEvent.robotDone res])).1.trajectory_interface_.phase
        = .idle
    ∧ (UrDriverModel.trajRun d1
        (pointEventList ps ++ [UrDriverModel.TrajEvent.robotDone res])).1.trajectory_interface_.clientConnected
        = true := by
  obtain ⟨hcb, hconn2, m2, hph2⟩ := trajRun_points ps d1 m hconn hph
  rw [trajRun_append]
  refine ⟨?_, ?_, ?_⟩
  · rw [hcb]
    simp [UrDriverModel.trajRun, UrDriverModel.trajStep, UrDriverModel.trajectoryDoneEvent,
      TrajectoryInterfaceState.robotReportsDone, hph2]
  · simp [UrDriverModel.trajRun, UrDriverModel.trajStep, UrDriverModel.trajectoryDoneEvent,
      TrajectoryInterfaceState.robotReportsDone, hph2]
  · simp [UrDriverModel.trajRun, UrDriverModel.trajStep, UrDriverModel.trajectoryDoneEvent,
      TrajectoryInterfaceState.robotReportsDone, hph2, hconn2]

/-- A completion report arriving while the channel is Idle invokes no callback
and changes nothing. -/
lemma trajRun_done_idle (d2 : UrDriverModel) (res2 : TrajectoryResult)
    (hph : d2.trajectory_interface_.phase = .idle) :
    UrDriverModel.trajRun d2 [UrDriverModel.TrajEvent.robotDone res2] = (d2, []) := by
  simp [UrDriverModel.trajRun, UrDriverModel.trajStep, UrDriverModel.trajectoryDoneEvent,
    TrajectoryInterfaceState.robotReportsDone, hph]

/-- C5: over a forwarded-trajectory episode — start message, any run of point
writes, then the robot-reported terminal outcome — the registered trajectory
result callback is invoked exactly once, with the terminal outcome, and the
channel returns to Idle so a new trajectory can start; a duplicate completion
report after that invokes nothing (never more than once). -/
theorem trajectory_result_callback_exactly_once
    (d : UrDriverModel) (n : ℕ) (ps : List (vector6d_t × Bool × ℚ × ℚ))
    (res res2 : TrajectoryResult)
    (hidle : d.trajectory_interface_.phase = .idle)
    (hconn : d.trajectory_interface_.clientConnected = true) :
    (UrDriverModel.trajRun d (UrDriverModel.TrajEvent.startMsg n
        :: (pointEventList ps ++ [UrDriverModel.TrajEvent.robotDone res]))).2 = [res]
    ∧ (UrDriverModel.trajRun d (UrDriverModel.TrajEvent.startMsg n
        :: (pointEventList ps ++ [UrDriverModel.TrajEvent.robotDone res]))).1.trajectory_interface_.phase
        = .idle
    ∧ (UrDriverModel.trajRun d (UrDriverModel.TrajEvent.startMsg n
        :: (pointEventList ps ++ [UrDriverModel.TrajEvent.robotDone res,
              UrDriverModel.TrajEvent.robotDone res2]))).2 = [res] := by
  have hstartPh : (d.writeTrajectoryControlMessage .trajectoryStart n
      (RobotReceiveTimeout.millisec 200)).2.trajectory_interface_.phase = .streaming n := by
    simp [UrDriverModel.writeTrajectoryControlMessage,
      TrajectoryInterfaceState.writeControlMessage, hidle, hconn]
  have hstartConn : (d.writeTrajectoryControlMessage .trajectoryStart n
      (RobotReceiveTimeout.millisec 200)).2.trajectory_interface_.clientConnected = true := by
    simp [UrDriverModel.writeTrajectoryControlMessage,
      TrajectoryInterfaceState.writeControlMessage, hidle, hconn]
  obtain ⟨hc1, hp1, hcn1⟩ := trajRun_points_then_done ps res
    (d.writeTrajectoryControlMessage .trajectoryStart n (RobotReceiveTimeout.millisec 200)).2
    n hstartConn hstartPh
  have hcons : ∀ es : List UrDriverModel.TrajEvent,
      UrDriverModel.trajRun d (UrDriverModel.TrajEvent.startMsg n :: es)
        = ((UrDriverModel.trajRun (d.writeTrajectoryControlMessage .trajectoryStart n
              (RobotReceiveTimeout.millisec 200)).2 es).1,
           (UrDriverModel.trajRun (d.writeTrajectoryControlMessage .trajectoryStart n
              (RobotReceiveTimeout.millisec 200)).2 es).2) := by
    intro es
    rfl
  refine ⟨?_, ?_, ?_⟩
  · rw [hcons]
    exact hc1
  · rw [hcons]
    exact hp1
  · rw [hcons]
    have hsplit : pointEventList ps ++ [UrDriverModel.TrajEvent.robotDone res,
        UrDriverModel.TrajEvent.robotDone res2]
        = (pointEventList ps ++ [UrDriverModel.TrajEvent.robotDone res])
            ++ [UrDriverModel.TrajEvent.robotDone res2] := by
      simp
    rw [hsplit, trajRun_append, hc1, trajRun_done_idle _ res2 hp1]
    simp

/-- Witness for C5: a two-point episode with a success outcome invokes the
callback exactly once with `success`, the channel returns to Idle, and a
duplicate completion report adds nothing. -/
theorem trajectory_result_callback_exactly_once_witness :
    (UrDriverModel.trajRun sampleDriverConnected (UrDriverModel.TrajEvent.startMsg 2
        :: (pointEventList [((fun _ => 0), false, 1, 13 / 250), ((fun _ => 0), false, 2, 13 / 250)]
            ++ [UrDriverModel.TrajEvent.robotDone TrajectoryResult.success]))).2
      = [TrajectoryResult.success]
    ∧ (UrDriverModel.trajRun sampleDriverConnected (UrDriverModel.TrajEvent.startMsg 2
        :: (pointEventList [((fun _ => 0), false, 1, 13 / 250), ((fun _ => 0), false, 2, 13 / 250)]
            ++ [UrDriverModel.TrajEvent.robotDone TrajectoryResult.success,
                  UrDriverModel.TrajEvent.robotDone TrajectoryResult.canceled]))).2
      = [TrajectoryResult.success] := by
  have h := trajectory_result_callback_exactly_once sampleDriverConnected 2
    [((fun _ => 0), false, 1, 13 / 250), ((fun _ => 0), false, 2, 13 / 250)]
    TrajectoryResult.success TrajectoryResult.canceled rfl rfl
  exact ⟨h.1, h.2.2⟩

/-- C6: while the robot-side control program is not active (no client on the
script-command channel), every script-command operation returns false
immediately — the call is a pure state inspection, never a blocking wait, and
the driver is unchanged; after the orchestrator's automatic reconnection
succeeds, the same call returns true. -/
theorem script_commands_fail_fast_when_disconnected
    (d : UrDriverModel) (mass : ℚ) (cog grav : vector3d_t) (voltage : ToolVoltage)
    (task_frame wrench limits : vector6d_t) (sel : vector6uint32_t) (ty : ℕ)
    (ct : PayloadEstimType) (md smd ms : ℚ)
    (hdisc : d.script_command_interface_.clientConnected = false) :
    d.setPayload mass cog = (false, d)
    ∧ d.zeroFTSensor = (false, d)
    ∧ d.setToolVoltage voltage = (false, d)
    ∧ d.startForceMode task_frame sel wrench ty limits = (false, d)
    ∧ d.endForceMode = (false, d)
    ∧ d.startToolContact = (false, d)
    ∧ d.endToolContact = (false, d)
    ∧ d.setGravity grav = (false, d)
    ∧ d.startPayloadEstimation ct md smd ms = (false, d)
    ∧ (d.tryReconnectScriptCommandInterface true).script_command_interface_.clientConnected = true
    ∧ ((d.tryReconnectScriptCommandInterface true).setPayload mass cog).1 = true := by
  refine ⟨?_, ?_, ?_, ?_, ?_, ?_, ?_, ?_, ?_, ?_, ?_⟩ <;>
    simp [UrDriverModel.setPayload, UrDriverModel.zeroFTSensor, UrDriverModel.setToolVoltage,
      UrDriverModel.startForceMode, UrDriverModel.endForceMode, UrDriverModel.startToolContact,
      UrDriverModel.endToolContact, UrDriverModel.setGravity,
      UrDriverModel.startPayloadEstimation, UrDriverModel.tryReconnectScriptCommandInterface,
      ScriptCommandInterfaceState.sendCommand, ScriptCommandInterfaceState.tryReconnect, hdisc]

/-- Witness for C6: on the freshly constructed driver (program not yet
running) `setPayload` fails immediately; after a successful reconnection it
succeeds. -/
theorem script_commands_fail_fast_when_disconnected_witness :
    sampleDriver.setPayload 3 (fun _ => 0) = (false, sampleDriver)
    ∧ ((sampleDriver.tryReconnectScriptCommandInterface true).setPayload 3 (fun _ => 0)).1
        = true := by
  have h := script_commands_fail_fast_when_disconnected sampleDriver 3 (fun _ => 0)
    (fun _ => 0) 0 (fun _ => 0) (fun _ => 0) (fun _ => 0) (fun _ => 0) 2
    PayloadEstimType.frontLift 1 0 (1 / 10) rfl
  exact ⟨h.1, h.2.2.2.2.2.2.2.2.2.2⟩

/-- No single driver operation changes the stored control frequency or the
version record populated at startup. -/
lemma stepDriver_preserves_id_fields (d : UrDriverModel) (op : UrDriverModel.DriverOp) :
    (UrDriverModel.stepDriver d op).robot_version_ = d.robot_version_
    ∧ (UrDriverModel.stepDriver d op).rtde_frequency_ = d.rtde_frequency_ := by
  cases op
  case deliverCyclic f =>
    refine ⟨?_, ?_⟩ <;>
      simp only [UrDriverModel.stepDriver, UrDriverModel.deliverCyclicFrame] <;>
      split <;> rfl
  all_goals exact ⟨rfl, rfl⟩

/-- No sequence of driver operations changes the stored control frequency or
the version record populated at startup. -/
lemma runOps_preserves_id_fields (ops : List UrDriverModel.DriverOp) :
    ∀ d : UrDriverModel,
      (UrDriverModel.runOps d ops).robot_version_ = d.robot_version_
      ∧ (UrDriverModel.runOps d ops).rtde_frequency_ = d.rtde_frequency_ := by
  induction ops with
  | nil =>
    intro d
    exact ⟨rfl, rfl⟩
  | cons op ops ih =>
    intro d
    have h1 := stepDriver_preserves_id_fields d op
    have h2 := ih (UrDriverModel.stepDriver d op)
    exact ⟨h2.1.trans h1.1, h2.2.trans h1.2⟩

/-- C10: `getControlFrequency` and `getVersion` are pure observers — they
return the stored `rtde_frequency_` and `robot_version_` fields and leave the
driver unchanged; both fields are invariant under every sequence of driver
operations, and on a driver constructed from a robot environment `getVersion`
keeps returning the version record populated once at startup. -/
theorem getters_are_pure_observers (d : UrDriverModel) (ops : List UrDriverModel.DriverOp)
    (cfg : UrDriverConfig) (env : RobotEnv) :
    d.getControlFrequency = (d.rtde_frequency_, d)
    ∧ d.getVersion = (d.robot_version_, d)
    ∧ (UrDriverModel.runOps d ops).robot_version_ = d.robot_version_
    ∧ (UrDriverModel.runOps d ops).rtde_frequency_ = d.rtde_frequency_
    ∧ (mkUrDriver cfg env).robot_version_ = env.version
    ∧ ((UrDriverModel.runOps (mkUrDriver cfg env) ops).getVersion).1 = env.version := by
  refine ⟨rfl, rfl, (runOps_preserves_id_fields ops d).1, (runOps_preserves_id_fields ops d).2,
    rfl, ?_⟩
  exact (runOps_preserves_id_fields ops (mkUrDriver cfg env)).1

end Urcl
